import Mathlib

/-!
Verification of the OV9281 image-sensor driver (drivers/media/i2c/ov9281.c).

The development shallowly embeds the driver's register transport and its
subdevice state machine.  Pure byte-level message construction is modelled
directly from `ov9281_write_reg` / `ov9281_read_reg`; the stateful paths
(`ov9281_set_ctrl`, `ov9281_s_stream`, `ov9281_s_power`,
`__ov9281_start_stream`) are modelled as explicit state transformers that
also emit a trace of observable operations (runtime-PM calls and attempted
I2C register writes).  The I2C bus and the runtime-PM core are external to
the driver and are modelled as oracles supplied to each operation.
-/

/-! ### Register-map constants, from the source header block -/

def CHIP_ID : Nat := 0x9281

def OV9281_REG_CHIP_ID : Nat := 0x300a

def OV9281_REG_CTRL_MODE : Nat := 0x0100

def OV9281_MODE_SW_STANDBY : Nat := 0x0

def OV9281_MODE_STREAMING : Nat := 0x1

def OV9281_REG_EXPOSURE : Nat := 0x3500

def OV9281_REG_GAIN_H : Nat := 0x3508

def OV9281_REG_GAIN_L : Nat := 0x3509

def OV9281_GAIN_H_MASK : Nat := 0x07

def OV9281_GAIN_H_SHIFT : Nat := 8

def OV9281_GAIN_L_MASK : Nat := 0xff

def OV9281_REG_TEST_PATTERN : Nat := 0x5e00

def OV9281_TEST_PATTERN_ENABLE : Nat := 0x80

def OV9281_TEST_PATTERN_DISABLE : Nat := 0x0

def OV9281_REG_VTS : Nat := 0x380e

def REG_NULL : Nat := 0xFFFF

def OV9281_EXPOSURE_MIN : Nat := 4

def OV9281_VTS_MAX : Nat := 0x7fff

/-! ### Byte-level register transport (`ov9281_write_reg`, `ov9281_read_reg`)

Errno values are the negated Linux error numbers returned by the C code:
`-EINVAL = -22`, `-EIO = -5`, `-ENODEV = -19`. -/

/-- The low `n` bytes of `v` in big-endian order, exactly the bytes the C
code copies out of `cpu_to_be32(val)` starting at offset `4 - len`. -/
def beBytes : Nat → Nat → List Nat
  | 0, _ => []
  | n + 1, v => ((v >>> (8 * n)) % 256) :: beBytes n v

/-- Reassemble a big-endian byte list, as `be32_to_cpu` does for the bytes
deposited in the low positions of a zero-initialised 32-bit buffer. -/
def assembleBE (bytes : List Nat) : Nat :=
  bytes.foldl (fun a b => a * 256 + b % 256) 0

/-- The I2C message buffer built by `ov9281_write_reg`: address high byte,
address low byte, then the value bytes. -/
def ov9281_write_msg (reg len val : Nat) : List Nat :=
  ((reg >>> 8) % 256) :: (reg % 256) :: beBytes len val

/-- `ov9281_write_reg`.  `send` models `i2c_master_send` and returns the
number of bytes the adapter transmitted. -/
def ov9281_write_reg (send : List Nat → Nat) (reg len val : Nat) : Int :=
  if len > 4 then -22
  else if send (ov9281_write_msg reg len val) ≠ len + 2 then -5
  else 0

/-- The read-side bus oracle: for a register address and a length, either
the bytes the device returned, or `none` for a failed `i2c_transfer`. -/
abbrev RBus := Nat → Nat → Option (List Nat)

/-- `ov9281_read_reg`: validates the length, performs the addressed read
and assembles the returned bytes big-endian. -/
def ov9281_read_reg (bus : RBus) (reg len : Nat) : Except Int Nat :=
  if len > 4 ∨ len = 0 then Except.error (-22)
  else
    match bus reg len with
    | none => Except.error (-5)
    | some bytes => Except.ok (assembleBE bytes)

/-- `ov9281_check_sensor_id`: reads `0x300B` then (only if that succeeded)
`0x300A` as 8-bit values, assembles `id |= id_msb << 8` and compares with
`CHIP_ID`; any read failure or a mismatch yields `-ENODEV = -19`. -/
def ov9281_check_sensor_id (bus : RBus) : Int :=
  match ov9281_read_reg bus (OV9281_REG_CHIP_ID + 1) 1 with
  | Except.error _ => -19
  | Except.ok idlo =>
    match ov9281_read_reg bus OV9281_REG_CHIP_ID 1 with
    | Except.error _ => -19
    | Except.ok idmsb => if (idlo ||| (idmsb <<< 8)) = CHIP_ID then 0 else -19

/-! ### Driver state machine

State-level model of `struct ov9281` and its operations.  I2C register
writes are abstracted by a bus oracle `WBus` deciding whether each
attempted write succeeds; every attempted write is recorded in the
operation trace together with the runtime-PM calls the driver makes. -/

/-- Observable operations: runtime-PM calls and attempted I2C register
writes (address, value length in bytes, value). -/
inductive Op where
  | pmGetSync
  | pmGet
  | pmPut
  | pmPutNoidle
  | i2cWrite (addr : Nat) (len : Nat) (val : Nat)
  deriving DecidableEq

/-- Write-side bus oracle: whether the transfer of a given register write
completes in full. -/
abbrev WBus := Nat → Nat → Nat → Bool

/-- `struct ov9281_mode` (the fields the state machine reads). -/
structure Mode where
  width : Nat
  height : Nat
  hts_def : Nat
  vts_def : Nat
  exp_def : Nat
  reg_list : List (Nat × Nat)
  deriving DecidableEq

/-- The mutable range bookkeeping of a `v4l2_ctrl` (only the exposure
control's range is ever modified by the driver). -/
structure CtrlRange where
  minimum : Int
  maximum : Int
  step : Int
  default_value : Int
  deriving DecidableEq

/-- The driver-visible state of `struct ov9281`: the two flags, the
runtime-PM resumed bit, the stored control values and the exposure range,
and the current mode. -/
structure Ov9281 where
  streaming : Bool
  power_on : Bool
  resumed : Bool
  exposure_range : CtrlRange
  exposure_val : Nat
  anal_gain_val : Nat
  vblank_val : Nat
  test_pattern_val : Nat
  cur_mode : Mode
  deriving DecidableEq

/-- The register-producing controls handled by `ov9281_set_ctrl`. -/
inductive CtrlId where
  | exposure
  | anal_gain
  | vblank
  | test_pattern
  deriving DecidableEq

/-- State-level view of `ov9281_write_reg`: records the attempted write
and reports `-EIO` when the bus does not complete it (`-EINVAL` for an
oversized length, in which case nothing is transmitted). -/
def wreg (bus : WBus) (addr len val : Nat) : List Op × Int :=
  if len > 4 then ([], -22)
  else ([Op.i2cWrite addr len val], if bus addr len val then 0 else -5)

/-- `ov9281_write_array`: 8-bit writes in order up to the `REG_NULL`
sentinel, stopping at the first failure. -/
def ov9281_write_array (bus : WBus) : List (Nat × Nat) → List Op × Int
  | [] => ([], 0)
  | (addr, v) :: rest =>
    if addr = REG_NULL then ([], 0)
    else
      let w := wreg bus addr 1 v
      if w.2 = 0 then
        let rest' := ov9281_write_array bus rest
        (w.1 ++ rest'.1, rest'.2)
      else w

/-- The trace `ov9281_write_array` produces when every write succeeds. -/
def ov9281_array_trace : List (Nat × Nat) → List Op
  | [] => []
  | (addr, v) :: rest =>
    if addr = REG_NULL then [] else Op.i2cWrite addr 1 v :: ov9281_array_trace rest

/-- The register value computed by `ov9281_enable_test_pattern`. -/
def ov9281_test_pattern_val (pattern : Nat) : Nat :=
  if pattern ≠ 0 then (pattern - 1) ||| OV9281_TEST_PATTERN_ENABLE
  else OV9281_TEST_PATTERN_DISABLE

/-- `ov9281_enable_test_pattern`: one 8-bit write to `0x5E00`. -/
def ov9281_enable_test_pattern (bus : WBus) (pattern : Nat) : List Op × Int :=
  wreg bus OV9281_REG_TEST_PATTERN 1 (ov9281_test_pattern_val pattern)

/-- The propagation step at the head of `ov9281_set_ctrl`: a VBLANK
change rebounds the exposure control's maximum; other controls propagate
nothing. -/
def ov9281_vblank_propagate (s : Ov9281) (id : CtrlId) (v : Nat) : Ov9281 :=
  match id with
  | CtrlId.vblank =>
    { s with exposure_range :=
        { s.exposure_range with
            maximum := (s.cur_mode.height : Int) + (v : Int) - 4 } }
  | _ => s

/-- The register writes of the second `switch` of `ov9281_set_ctrl`.  The
gain path merges its two return codes with a bitwise or, exactly as the C
does with `ret |= ...`. -/
def ov9281_ctrl_writes (bus : WBus) (s : Ov9281) (id : CtrlId) (v : Nat) :
    List Op × Int :=
  match id with
  | CtrlId.exposure => wreg bus OV9281_REG_EXPOSURE 3 (v <<< 4)
  | CtrlId.anal_gain =>
    let w1 := wreg bus OV9281_REG_GAIN_H 1
      ((v >>> OV9281_GAIN_H_SHIFT) &&& OV9281_GAIN_H_MASK)
    let w2 := wreg bus OV9281_REG_GAIN_L 1 (v &&& OV9281_GAIN_L_MASK)
    (w1.1 ++ w2.1, Int.lor w1.2 w2.2)
  | CtrlId.vblank => wreg bus OV9281_REG_VTS 2 (v + s.cur_mode.height)
  | CtrlId.test_pattern => ov9281_enable_test_pattern bus v

/-- `ov9281_set_ctrl`: the propagation step runs independent of power
state; the register writes run only when the runtime-PM probe reports the
device resumed. -/
def ov9281_set_ctrl (bus : WBus) (s : Ov9281) (id : CtrlId) (v : Nat) :
    Ov9281 × List Op × Int :=
  if (ov9281_vblank_propagate s id v).resumed = false then
    (ov9281_vblank_propagate s id v, [Op.pmGet], 0)
  else
    (ov9281_vblank_propagate s id v,
     Op.pmGet ::
       (ov9281_ctrl_writes bus (ov9281_vblank_propagate s id v) id v).1
       ++ [Op.pmPut],
     (ov9281_ctrl_writes bus (ov9281_vblank_propagate s id v) id v).2)

/-- Store a control's logical value in the handle. -/
def ctrlStore (s : Ov9281) (id : CtrlId) (v : Nat) : Ov9281 :=
  match id with
  | CtrlId.exposure => { s with exposure_val := v }
  | CtrlId.anal_gain => { s with anal_gain_val := v }
  | CtrlId.vblank => { s with vblank_val := v }
  | CtrlId.test_pattern => { s with test_pattern_val := v }

/-- Read a control's stored logical value. -/
def ctrlVal (s : Ov9281) (id : CtrlId) : Nat :=
  match id with
  | CtrlId.exposure => s.exposure_val
  | CtrlId.anal_gain => s.anal_gain_val
  | CtrlId.vblank => s.vblank_val
  | CtrlId.test_pattern => s.test_pattern_val

/-- Modelled from the spec: the control framework (not under src/) stores
the requested logical value and calls `ov9281_set_ctrl`; the value is
committed when the setter returns success and reverted otherwise. -/
def v4l2_s_ctrl (bus : WBus) (s : Ov9281) (id : CtrlId) (v : Nat) :
    Ov9281 × List Op × Int :=
  (if (ov9281_set_ctrl bus s id v).2.2 = 0 then
     ctrlStore (ov9281_set_ctrl bus s id v).1 id v
   else (ov9281_set_ctrl bus s id v).1,
   (ov9281_set_ctrl bus s id v).2.1,
   (ov9281_set_ctrl bus s id v).2.2)

/-- One iteration of the control-replay loop: skip when an earlier
control already failed, otherwise run the setter on the current state
with its stored value (selected by `sel`) and append its trace. -/
def ctrlChain (bus : WBus) (id : CtrlId) (sel : Ov9281 → Nat)
    (prev : Ov9281 × List Op × Int) : Ov9281 × List Op × Int :=
  if prev.2.2 ≠ 0 then prev
  else
    ((v4l2_s_ctrl bus prev.1 id (sel prev.1)).1,
     prev.2.1 ++ (v4l2_s_ctrl bus prev.1 id (sel prev.1)).2.1,
     (v4l2_s_ctrl bus prev.1 id (sel prev.1)).2.2)

/-- Modelled from the spec: `v4l2_ctrl_handler_setup` (not under src/)
replays every control that has a setter, in registration order (vblank,
exposure, analogue gain, test pattern), with its stored value, stopping at
the first failure. -/
def v4l2_ctrl_handler_setup (bus : WBus) (s : Ov9281) : Ov9281 × List Op × Int :=
  ctrlChain bus CtrlId.test_pattern (fun st => st.test_pattern_val)
    (ctrlChain bus CtrlId.anal_gain (fun st => st.anal_gain_val)
      (ctrlChain bus CtrlId.exposure (fun st => st.exposure_val)
        (ctrlChain bus CtrlId.vblank (fun st => st.vblank_val) (s, [], 0))))

/-- `__ov9281_start_stream`: mode register sequence, control replay, then
the stream-on write to `0x0100`. -/
def __ov9281_start_stream (bus : WBus) (s : Ov9281) : Ov9281 × List Op × Int :=
  if (ov9281_write_array bus s.cur_mode.reg_list).2 ≠ 0 then
    (s, (ov9281_write_array bus s.cur_mode.reg_list).1,
     (ov9281_write_array bus s.cur_mode.reg_list).2)
  else if (v4l2_ctrl_handler_setup bus s).2.2 ≠ 0 then
    ((v4l2_ctrl_handler_setup bus s).1,
     (ov9281_write_array bus s.cur_mode.reg_list).1
       ++ (v4l2_ctrl_handler_setup bus s).2.1,
     (v4l2_ctrl_handler_setup bus s).2.2)
  else
    ((v4l2_ctrl_handler_setup bus s).1,
     (ov9281_write_array bus s.cur_mode.reg_list).1
       ++ (v4l2_ctrl_handler_setup bus s).2.1
       ++ (wreg bus OV9281_REG_CTRL_MODE 1 OV9281_MODE_STREAMING).1,
     (wreg bus OV9281_REG_CTRL_MODE 1 OV9281_MODE_STREAMING).2)

/-- `__ov9281_stop_stream`: the stream-off write to `0x0100`. -/
def __ov9281_stop_stream (bus : WBus) : List Op × Int :=
  wreg bus OV9281_REG_CTRL_MODE 1 OV9281_MODE_SW_STANDBY

/-- `ov9281_s_stream`.  `pm` models the `pm_runtime_get_sync` return value
(negative = failure; the PM core is not under src/, modelled from the
spec: a successful get resumes the device). -/
def ov9281_s_stream (bus : WBus) (pm : Int) (s : Ov9281) (onv : Bool) :
    Ov9281 × List Op × Int :=
  if onv = s.streaming then (s, [], 0)
  else if onv then
    if pm < 0 then (s, [Op.pmGetSync, Op.pmPutNoidle], pm)
    else if (__ov9281_start_stream bus { s with resumed := true }).2.2 ≠ 0 then
      ((__ov9281_start_stream bus { s with resumed := true }).1,
       Op.pmGetSync :: (__ov9281_start_stream bus { s with resumed := true }).2.1
         ++ [Op.pmPut],
       (__ov9281_start_stream bus { s with resumed := true }).2.2)
    else
      ({ (__ov9281_start_stream bus { s with resumed := true }).1 with
           streaming := true },
       Op.pmGetSync :: (__ov9281_start_stream bus { s with resumed := true }).2.1,
       0)
  else
    ({ s with streaming := false },
     (__ov9281_stop_stream bus).1 ++ [Op.pmPut], 0)

/-- `ov9281_s_power`: runtime-PM get/put guarded by the `power_on` flag. -/
def ov9281_s_power (pm : Int) (s : Ov9281) (onv : Bool) : Ov9281 × List Op × Int :=
  if s.power_on = onv then (s, [], 0)
  else if onv then
    if pm < 0 then (s, [Op.pmGetSync, Op.pmPutNoidle], pm)
    else ({ s with power_on := true, resumed := true }, [Op.pmGetSync], 0)
  else ({ s with power_on := false }, [Op.pmPut], 0)

/-! ### The 1280x800 mode table, verbatim from the source -/

/-- `ov9281_1280x800_regs`, including the `REG_NULL` sentinel entry. -/
def ov9281_1280x800_regs : List (Nat × Nat) := [
  (0x0103, 0x01),
  (0x0302, 0x32),
  (0x030d, 0x50),
  (0x030e, 0x02),
  (0x3001, 0x00),
  (0x3004, 0x00),
  (0x3005, 0x00),
  (0x3006, 0x04),
  (0x3011, 0x0a),
  (0x3013, 0x18),
  (0x3022, 0x01),
  (0x3023, 0x00),
  (0x302c, 0x00),
  (0x302f, 0x00),
  (0x3030, 0x04),
  (0x3039, 0x32),
  (0x303a, 0x00),
  (0x303f, 0x01),
  (0x3500, 0x00),
  (0x3501, 0x2a),
  (0x3502, 0x90),
  (0x3503, 0x08),
  (0x3505, 0x8c),
  (0x3507, 0x03),
  (0x3508, 0x00),
  (0x3509, 0x10),
  (0x3610, 0x80),
  (0x3611, 0xa0),
  (0x3620, 0x6f),
  (0x3632, 0x56),
  (0x3633, 0x78),
  (0x3662, 0x05),
  (0x3666, 0x00),
  (0x366f, 0x5a),
  (0x3680, 0x84),
  (0x3712, 0x80),
  (0x372d, 0x22),
  (0x3731, 0x80),
  (0x3732, 0x30),
  (0x3778, 0x00),
  (0x377d, 0x22),
  (0x3788, 0x02),
  (0x3789, 0xa4),
  (0x378a, 0x00),
  (0x378b, 0x4a),
  (0x3799, 0x20),
  (0x3800, 0x00),
  (0x3801, 0x00),
  (0x3802, 0x00),
  (0x3803, 0x00),
  (0x3804, 0x05),
  (0x3805, 0x0f),
  (0x3806, 0x03),
  (0x3807, 0x2f),
  (0x3808, 0x05),
  (0x3809, 0x00),
  (0x380a, 0x03),
  (0x380b, 0x20),
  (0x380c, 0x02),
  (0x380d, 0xd8),
  (0x380e, 0x03),
  (0x380f, 0x8e),
  (0x3810, 0x00),
  (0x3811, 0x08),
  (0x3812, 0x00),
  (0x3813, 0x08),
  (0x3814, 0x11),
  (0x3815, 0x11),
  (0x3820, 0x40),
  (0x3821, 0x00),
  (0x3881, 0x42),
  (0x38b1, 0x00),
  (0x3920, 0xff),
  (0x4003, 0x40),
  (0x4008, 0x04),
  (0x4009, 0x0b),
  (0x400c, 0x00),
  (0x400d, 0x07),
  (0x4010, 0x40),
  (0x4043, 0x40),
  (0x4307, 0x30),
  (0x4317, 0x00),
  (0x4501, 0x00),
  (0x4507, 0x00),
  (0x4509, 0x00),
  (0x450a, 0x08),
  (0x4601, 0x04),
  (0x470f, 0x00),
  (0x4f07, 0x00),
  (0x4800, 0x00),
  (0x5000, 0x9f),
  (0x5001, 0x00),
  (0x5e00, 0x00),
  (0x5d00, 0x07),
  (0x5d01, 0x00),
  (0xFFFF, 0x00)
]

/-- The single entry of `supported_modes`. -/
def ov9281_default_mode : Mode :=
  { width := 1280, height := 800, hts_def := 0x05b0, vts_def := 0x038e,
    exp_def := 0x0320, reg_list := ov9281_1280x800_regs }

/-- The handle state right after `ov9281_initialize_controls` at probe:
control values at their defaults, exposure range `[4, vts_def − 4]`,
device suspended and idle. -/
def initState : Ov9281 :=
  { streaming := false, power_on := false, resumed := false,
    exposure_range :=
      { minimum := (OV9281_EXPOSURE_MIN : Int),
        maximum := (ov9281_default_mode.vts_def : Int) - 4,
        step := 1, default_value := (ov9281_default_mode.exp_def : Int) },
    exposure_val := ov9281_default_mode.exp_def,
    anal_gain_val := 0x10,
    vblank_val := ov9281_default_mode.vts_def - ov9281_default_mode.height,
    test_pattern_val := 0,
    cur_mode := ov9281_default_mode }

/-- A bus on which every write transfer completes. -/
def allOk : WBus := fun _ _ _ => true

/-- A powered, streaming state used to exercise the resumed paths. -/
def streamState : Ov9281 :=
  { initState with power_on := true, resumed := true, streaming := true }

/-- A bus on which every write transfer is short. -/
def allFail : WBus := fun _ _ _ => false

/-- The state after a successful control replay: only the exposure
maximum changes (recomputed from the stored VBLANK value). -/
def setupState (s : Ov9281) : Ov9281 :=
  { s with exposure_range :=
      { s.exposure_range with
          maximum := (s.cur_mode.height : Int) + (s.vblank_val : Int) - 4 } }

/-- The trace of a successful control replay: each control's PM probe,
its register writes with the stored value, and the PM release. -/
def ov9281_setup_trace (s : Ov9281) : List Op :=
  [Op.pmGet,
   Op.i2cWrite OV9281_REG_VTS 2 (s.vblank_val + s.cur_mode.height),
   Op.pmPut,
   Op.pmGet,
   Op.i2cWrite OV9281_REG_EXPOSURE 3 (s.exposure_val <<< 4),
   Op.pmPut,
   Op.pmGet,
   Op.i2cWrite OV9281_REG_GAIN_H 1
     ((s.anal_gain_val >>> OV9281_GAIN_H_SHIFT) &&& OV9281_GAIN_H_MASK),
   Op.i2cWrite OV9281_REG_GAIN_L 1 (s.anal_gain_val &&& OV9281_GAIN_L_MASK),
   Op.pmPut,
   Op.pmGet,
   Op.i2cWrite OV9281_REG_TEST_PATTERN 1
     (ov9281_test_pattern_val s.test_pattern_val),
   Op.pmPut]

/-- The register writes a control value produces when programmed to the
sensor (the VTS write depends on the mode height `hgt`). -/
def ctrlRegOps (hgt : Nat) (id : CtrlId) (v : Nat) : List Op :=
  match id with
  | CtrlId.exposure => [Op.i2cWrite OV9281_REG_EXPOSURE 3 (v <<< 4)]
  | CtrlId.anal_gain =>
    [Op.i2cWrite OV9281_REG_GAIN_H 1
       ((v >>> OV9281_GAIN_H_SHIFT) &&& OV9281_GAIN_H_MASK),
     Op.i2cWrite OV9281_REG_GAIN_L 1 (v &&& OV9281_GAIN_L_MASK)]
  | CtrlId.vblank => [Op.i2cWrite OV9281_REG_VTS 2 (v + hgt)]
  | CtrlId.test_pattern =>
    [Op.i2cWrite OV9281_REG_TEST_PATTERN 1 (ov9281_test_pattern_val v)]

/-- Fold a sequence of VBLANK control writes over the state. -/
def applyVblanks (bus : WBus) (s : Ov9281) (vs : List Nat) : Ov9281 :=
  vs.foldl (fun st v => (v4l2_s_ctrl bus st CtrlId.vblank v).1) s

/-! ### Byte-encoding lemmas -/

theorem beBytes_length (n v : Nat) : (beBytes n v).length = n := by
  induction n generalizing v with
  | zero => rfl
  | succ n ih => simp [beBytes, ih]

theorem mod_mul_split (a b v : Nat) (ha : 0 < a) (hb : 0 < b) :
    v % (a * b) = v % a + a * (v / a % b) := by
  have h1 : v = a * b * (v / a / b) + (a * (v / a % b) + v % a) := by
    conv_lhs => rw [← Nat.div_add_mod v a, ← Nat.div_add_mod (v / a) b]
    ring
  have h2 : a * (v / a % b) + v % a < a * b := by
    have hx : v / a % b < b := Nat.mod_lt _ hb
    have hy : v % a < a := Nat.mod_lt _ ha
    have h5 : a * (v / a % b) + v % a < a * (v / a % b) + a :=
      Nat.add_lt_add_left hy _
    have h3 : a * (v / a % b) + a = a * (v / a % b + 1) := by ring
    have h4 : a * (v / a % b + 1) ≤ a * b :=
      Nat.mul_le_mul_left a (Nat.succ_le_of_lt hx)
    omega
  calc v % (a * b)
      = (a * b * (v / a / b) + (a * (v / a % b) + v % a)) % (a * b) := by
        rw [← h1]
    _ = (a * (v / a % b) + v % a) % (a * b) := by
        rw [Nat.add_comm]
        exact Nat.add_mul_mod_self_left _ _ _
    _ = a * (v / a % b) + v % a := Nat.mod_eq_of_lt h2
    _ = v % a + a * (v / a % b) := Nat.add_comm _ _

theorem assembleBE_aux (n v acc : Nat) :
    (beBytes n v).foldl (fun a b => a * 256 + b % 256) acc
      = acc * 2 ^ (8 * n) + v % 2 ^ (8 * n) := by
  induction n generalizing acc with
  | zero => simp [beBytes, Nat.mod_one]
  | succ n ih =>
    rw [beBytes, List.foldl_cons, ih]
    have h1 : (v >>> (8 * n)) % 256 % 256 = v / 2 ^ (8 * n) % 256 := by
      rw [Nat.mod_mod_of_dvd _ dvd_rfl, Nat.shiftRight_eq_div_pow]
    have h2 : (2 : Nat) ^ (8 * (n + 1)) = 2 ^ (8 * n) * 256 := by
      rw [Nat.mul_succ, pow_add]
      norm_num
    have h3 : v % (2 ^ (8 * n) * 256)
        = v % 2 ^ (8 * n) + 2 ^ (8 * n) * (v / 2 ^ (8 * n) % 256) :=
      mod_mul_split _ _ _ (Nat.pos_pow_of_pos _ (by norm_num)) (by norm_num)
    rw [h1, h2, h3]
    ring

theorem assembleBE_beBytes (n v : Nat) :
    assembleBE (beBytes n v) = v % 2 ^ (8 * n) := by
  have := assembleBE_aux n v 0
  simpa [assembleBE] using this

/-! ### Core lemmas -/

theorem int_lor_zero : Int.lor 0 0 = 0 := by decide

theorem write_array_ok (bus : WBus) (hbus : ∀ a l v, bus a l v = true) :
    ∀ regs : List (Nat × Nat),
      ov9281_write_array bus regs = (ov9281_array_trace regs, 0) := by
  intro regs
  induction regs with
  | nil => rfl
  | cons p rest ih =>
    obtain ⟨addr, v⟩ := p
    by_cases h : addr = REG_NULL
    · simp [ov9281_write_array, ov9281_array_trace, h]
    · simp [ov9281_write_array, ov9281_array_trace, h, wreg, hbus, ih]

theorem array_trace_only_writes :
    ∀ regs : List (Nat × Nat), ∀ op ∈ ov9281_array_trace regs,
      ∃ a v, op = Op.i2cWrite a 1 v := by
  intro regs
  induction regs with
  | nil => intro op h; simp [ov9281_array_trace] at h
  | cons p rest ih =>
    obtain ⟨addr, v⟩ := p
    intro op h
    by_cases hn : addr = REG_NULL
    · simp [ov9281_array_trace, hn] at h
    · simp [ov9281_array_trace, hn] at h
      rcases h with h | h
      · exact ⟨addr, v, h⟩
      · exact ih op h

theorem s_ctrl_preserves (bus : WBus) (s : Ov9281) (id : CtrlId) (v : Nat) :
    (v4l2_s_ctrl bus s id v).1.streaming = s.streaming ∧
    (v4l2_s_ctrl bus s id v).1.power_on = s.power_on ∧
    (v4l2_s_ctrl bus s id v).1.resumed = s.resumed ∧
    (v4l2_s_ctrl bus s id v).1.cur_mode = s.cur_mode := by
  cases id <;>
    simp only [v4l2_s_ctrl, ov9281_set_ctrl, ov9281_vblank_propagate] <;>
    split <;> split <;> simp [ctrlStore]

/-- A resumed, fully successful control write: the value is committed and
the trace is the PM probe, the control's register writes, the PM release. -/
theorem s_ctrl_ok_resumed (bus : WBus) (s : Ov9281) (id : CtrlId) (v : Nat)
    (hre : s.resumed = true) (hbus : ∀ a l w, bus a l w = true) :
    v4l2_s_ctrl bus s id v =
      (ctrlStore (ov9281_vblank_propagate s id v) id v,
       Op.pmGet :: ctrlRegOps s.cur_mode.height id v ++ [Op.pmPut], 0) := by
  cases id <;>
    simp [v4l2_s_ctrl, ov9281_set_ctrl, ov9281_vblank_propagate, ctrlRegOps,
      ov9281_ctrl_writes, ov9281_enable_test_pattern, wreg, hre, hbus,
      int_lor_zero]

/-- A suspended control write: the value is committed, the trace is just
the failed PM probe, no I2C write is attempted. -/
theorem s_ctrl_suspended (bus : WBus) (s : Ov9281) (id : CtrlId) (v : Nat)
    (hre : s.resumed = false) :
    v4l2_s_ctrl bus s id v =
      (ctrlStore (ov9281_vblank_propagate s id v) id v, [Op.pmGet], 0) := by
  cases id <;>
    simp [v4l2_s_ctrl, ov9281_set_ctrl, ov9281_vblank_propagate, hre]

/-- A replay-loop step from a so-far-successful state. -/
theorem ctrlChain_ok (bus : WBus) (id : CtrlId) (sel : Ov9281 → Nat)
    (st : Ov9281) (t : List Op) (hre : st.resumed = true)
    (hbus : ∀ a l w, bus a l w = true) :
    ctrlChain bus id sel (st, t, 0) =
      (ctrlStore (ov9281_vblank_propagate st id (sel st)) id (sel st),
       t ++ (Op.pmGet :: ctrlRegOps st.cur_mode.height id (sel st)
         ++ [Op.pmPut]), 0) := by
  have h := s_ctrl_ok_resumed bus st id (sel st) hre hbus
  simp [ctrlChain, h]

theorem handler_setup_ok (bus : WBus) (s : Ov9281)
    (hre : s.resumed = true) (hbus : ∀ a l v, bus a l v = true) :
    v4l2_ctrl_handler_setup bus s = (setupState s, ov9281_setup_trace s, 0) := by
  have hre2 : (setupState s).resumed = true := hre
  have h1 := ctrlChain_ok bus CtrlId.vblank (fun st => st.vblank_val) s []
    hre hbus
  have e1 : ctrlStore (ov9281_vblank_propagate s CtrlId.vblank s.vblank_val)
      CtrlId.vblank s.vblank_val = setupState s := by
    simp [ctrlStore, ov9281_vblank_propagate, setupState]
  rw [e1] at h1
  have h2 := ctrlChain_ok bus CtrlId.exposure (fun st => st.exposure_val)
    (setupState s)
    ([] ++ (Op.pmGet :: ctrlRegOps s.cur_mode.height CtrlId.vblank s.vblank_val
      ++ [Op.pmPut])) hre2 hbus
  have e2 : ctrlStore (ov9281_vblank_propagate (setupState s) CtrlId.exposure
      ((setupState s).exposure_val)) CtrlId.exposure ((setupState s).exposure_val)
      = setupState s := by
    simp [ctrlStore, ov9281_vblank_propagate]
  rw [e2] at h2
  have h3 := ctrlChain_ok bus CtrlId.anal_gain (fun st => st.anal_gain_val)
    (setupState s)
    ([] ++ (Op.pmGet :: ctrlRegOps s.cur_mode.height CtrlId.vblank s.vblank_val
      ++ [Op.pmPut])
     ++ (Op.pmGet :: ctrlRegOps (setupState s).cur_mode.height CtrlId.exposure
      ((setupState s).exposure_val) ++ [Op.pmPut])) hre2 hbus
  have e3 : ctrlStore (ov9281_vblank_propagate (setupState s) CtrlId.anal_gain
      ((setupState s).anal_gain_val)) CtrlId.anal_gain
      ((setupState s).anal_gain_val) = setupState s := by
    simp [ctrlStore, ov9281_vblank_propagate]
  rw [e3] at h3
  have h4 := ctrlChain_ok bus CtrlId.test_pattern (fun st => st.test_pattern_val)
    (setupState s)
    ([] ++ (Op.pmGet :: ctrlRegOps s.cur_mode.height CtrlId.vblank s.vblank_val
      ++ [Op.pmPut])
     ++ (Op.pmGet :: ctrlRegOps (setupState s).cur_mode.height CtrlId.exposure
      ((setupState s).exposure_val) ++ [Op.pmPut])
     ++ (Op.pmGet :: ctrlRegOps (setupState s).cur_mode.height CtrlId.anal_gain
      ((setupState s).anal_gain_val) ++ [Op.pmPut])) hre2 hbus
  have e4 : ctrlStore (ov9281_vblank_propagate (setupState s) CtrlId.test_pattern
      ((setupState s).test_pattern_val)) CtrlId.test_pattern
      ((setupState s).test_pattern_val) = setupState s := by
    simp [ctrlStore, ov9281_vblank_propagate]
  rw [e4] at h4
  unfold v4l2_ctrl_handler_setup
  rw [h1, h2, h3, h4]
  simp [ov9281_setup_trace, ctrlRegOps, setupState]


theorem ctrlChain_preserves_streaming (bus : WBus) (id : CtrlId)
    (sel : Ov9281 → Nat) (prev : Ov9281 × List Op × Int) :
    (ctrlChain bus id sel prev).1.streaming = prev.1.streaming := by
  unfold ctrlChain
  split
  · rfl
  · exact (s_ctrl_preserves bus prev.1 id (sel prev.1)).1

theorem handler_setup_preserves_streaming (bus : WBus) (s : Ov9281) :
    (v4l2_ctrl_handler_setup bus s).1.streaming = s.streaming := by
  unfold v4l2_ctrl_handler_setup
  rw [ctrlChain_preserves_streaming, ctrlChain_preserves_streaming,
    ctrlChain_preserves_streaming, ctrlChain_preserves_streaming]

theorem start_stream_preserves_streaming (bus : WBus) (s : Ov9281) :
    (__ov9281_start_stream bus s).1.streaming = s.streaming := by
  unfold __ov9281_start_stream
  split
  · rfl
  · split
    · exact handler_setup_preserves_streaming bus s
    · exact handler_setup_preserves_streaming bus s

theorem start_stream_ok (bus : WBus) (s : Ov9281)
    (hre : s.resumed = true) (hbus : ∀ a l v, bus a l v = true) :
    __ov9281_start_stream bus s =
      (setupState s,
       ov9281_array_trace s.cur_mode.reg_list ++ ov9281_setup_trace s
         ++ [Op.i2cWrite OV9281_REG_CTRL_MODE 1 OV9281_MODE_STREAMING], 0) := by
  unfold __ov9281_start_stream
  rw [write_array_ok bus hbus, handler_setup_ok bus s hre hbus]
  simp [wreg, hbus]

/-- The result state of a VBLANK control write always carries the
recomputed exposure maximum, whatever the power state and bus outcome. -/
theorem s_ctrl_vblank_max (bus : WBus) (s : Ov9281) (v : Nat) :
    (v4l2_s_ctrl bus s CtrlId.vblank v).1.exposure_range.maximum
      = (s.cur_mode.height : Int) + (v : Int) - 4 := by
  simp only [v4l2_s_ctrl, ov9281_set_ctrl, ov9281_vblank_propagate]
  split <;> split <;> simp [ctrlStore]

theorem s_ctrl_vblank_invariant_step (bus : WBus)
    (hbus : ∀ a l w, bus a l w = true) (st : Ov9281) (v : Nat) :
    (v4l2_s_ctrl bus st CtrlId.vblank v).1.exposure_range.maximum
      = ((v4l2_s_ctrl bus st CtrlId.vblank v).1.cur_mode.height : Int)
        + ((v4l2_s_ctrl bus st CtrlId.vblank v).1.vblank_val : Int) - 4 := by
  by_cases h : st.resumed
  · rw [s_ctrl_ok_resumed bus st CtrlId.vblank v h hbus]
    simp [ctrlStore, ov9281_vblank_propagate]
  · rw [s_ctrl_suspended bus st CtrlId.vblank v (by simpa using h)]
    simp [ctrlStore, ov9281_vblank_propagate]

theorem applyVblanks_cur_mode (bus : WBus) (s : Ov9281) (vs : List Nat) :
    (applyVblanks bus s vs).cur_mode = s.cur_mode := by
  induction vs generalizing s with
  | nil => rfl
  | cons v rest ih =>
    have h := (s_ctrl_preserves bus s CtrlId.vblank v).2.2.2
    calc (applyVblanks bus s (v :: rest)).cur_mode
        = (applyVblanks bus (v4l2_s_ctrl bus s CtrlId.vblank v).1 rest).cur_mode := rfl
      _ = (v4l2_s_ctrl bus s CtrlId.vblank v).1.cur_mode := ih _
      _ = s.cur_mode := h

theorem applyVblanks_concat (bus : WBus) (s : Ov9281) (vs : List Nat) (v : Nat) :
    applyVblanks bus s (vs ++ [v])
      = (v4l2_s_ctrl bus (applyVblanks bus s vs) CtrlId.vblank v).1 := by
  simp [applyVblanks, List.foldl_append]

/-- The success trace of `ov9281_s_stream(1)`. -/
theorem s_stream_on_ok (bus : WBus) (pm : Int) (s : Ov9281)
    (hstr : s.streaming = false) (hpm : 0 ≤ pm)
    (hbus : ∀ a l v, bus a l v = true) :
    ov9281_s_stream bus pm s true =
      ({ setupState s with resumed := true, streaming := true },
       Op.pmGetSync :: (ov9281_array_trace s.cur_mode.reg_list
         ++ ov9281_setup_trace s
         ++ [Op.i2cWrite OV9281_REG_CTRL_MODE 1 OV9281_MODE_STREAMING]), 0) := by
  have hre : ({ s with resumed := true } : Ov9281).resumed = true := rfl
  have h := start_stream_ok bus { s with resumed := true } hre hbus
  unfold ov9281_s_stream
  rw [h]
  have hpm2 : ¬ pm < 0 := not_lt.mpr hpm
  simp [hstr, hpm2, setupState, ov9281_setup_trace]

/-! ### Claim theorems -/

/-- Claim C5: for a register write with address `a`, length `L ∈ {1..4}`
and value `v < 2^(8L)`, the transmitted message is exactly `L + 2` bytes —
address high byte, address low byte, then the low `L` bytes of `v` in
big-endian order (they reassemble to `v`); the write fails with
`INVALID_ARGUMENT` (−22) for `L > 4` and with `IO_ERROR` (−5) on a short
transfer. -/
theorem write_reg_message_spec (a L v : Nat) (send : List Nat → Nat)
    (ha : a < 65536) (hL1 : 1 ≤ L) (hL4 : L ≤ 4) (hv : v < 2 ^ (8 * L)) :
    (ov9281_write_msg a L v).length = L + 2 ∧
    ov9281_write_msg a L v = (a >>> 8) :: (a % 256) :: beBytes L v ∧
    assembleBE (beBytes L v) = v ∧
    (∀ sendAll : List Nat → Nat, (∀ m, sendAll m = m.length) →
      ov9281_write_reg sendAll a L v = 0) ∧
    (∀ L2, L2 > 4 → ov9281_write_reg send a L2 v = -22) ∧
    (send (ov9281_write_msg a L v) ≠ L + 2 → ov9281_write_reg send a L v = -5) := by
  have hL4' : ¬ L > 4 := by omega
  refine ⟨?_, ?_, ?_, ?_, ?_, ?_⟩
  · simp [ov9281_write_msg, beBytes_length]
  · have hsh : a >>> 8 < 256 := by
      rw [Nat.shiftRight_eq_div_pow]
      omega
    simp [ov9281_write_msg, Nat.mod_eq_of_lt hsh]
  · rw [assembleBE_beBytes]
    exact Nat.mod_eq_of_lt hv
  · intro sendAll hall
    simp [ov9281_write_reg, hL4', hall, ov9281_write_msg, beBytes_length]
  · intro L2 h2
    simp [ov9281_write_reg, h2]
  · intro hshort
    simp [ov9281_write_reg, hL4', hshort]

theorem write_reg_message_spec_witness :
    (ov9281_write_msg 0x3500 3 0x3200).length = 3 + 2 ∧
    assembleBE (beBytes 3 0x3200) = 0x3200 ∧
    ov9281_write_reg (fun m => m.length) 0x3500 3 0x3200 = 0 ∧
    ov9281_write_reg (fun _ => 0) 0x3500 5 0x3200 = -22 ∧
    ov9281_write_reg (fun _ => 0) 0x3500 3 0x3200 = -5 := by
  have h := write_reg_message_spec 0x3500 3 0x3200 (fun _ => 0)
    (by decide) (by decide) (by decide) (by decide)
  exact ⟨h.1, h.2.2.1, h.2.2.2.1 (fun m => m.length) (fun m => rfl),
    h.2.2.2.2.1 5 (by decide), h.2.2.2.2.2 (by decide)⟩

/-- Claim C10: the write transport accepts length 0 — it succeeds and
transmits a 2-byte message holding only the register address — while the
read transport rejects length 0 with `INVALID_ARGUMENT` (−22); only the
read side validates the lower bound of the length. -/
theorem write_read_length_validation (a v : Nat) (send : List Nat → Nat)
    (bus : RBus) (hsend : ∀ m, send m = m.length) :
    ov9281_write_reg send a 0 v = 0 ∧
    ov9281_write_msg a 0 v = [(a >>> 8) % 256, a % 256] ∧
    (ov9281_write_msg a 0 v).length = 2 ∧
    ov9281_read_reg bus a 0 = Except.error (-22) := by
  refine ⟨?_, rfl, rfl, ?_⟩
  · simp [ov9281_write_reg, hsend, ov9281_write_msg, beBytes_length]
  · simp [ov9281_read_reg]

theorem write_read_length_validation_witness :
    ov9281_write_reg (fun m => m.length) 0x0100 0 7 = 0 ∧
    ov9281_write_msg 0x0100 0 7 = [(0x0100 >>> 8) % 256, 0x0100 % 256] ∧
    (ov9281_write_msg 0x0100 0 7).length = 2 ∧
    ov9281_read_reg (fun _ _ => none) 0x0100 0 = Except.error (-22) :=
  write_read_length_validation 0x0100 7 (fun m => m.length)
    (fun _ _ => none) (fun m => rfl)

/-- Claim C4: the probe identity check reads `0x300B` then `0x300A` as
8-bit values, assembles `(contents of 0x300A) <<< 8 ||| (contents of
0x300B)`, succeeds exactly when both reads complete and the assembled
value is `0x9281`, and fails with `NO_DEVICE` (−19) in every other case. -/
theorem check_sensor_id_spec (bus : RBus) :
    (ov9281_check_sensor_id bus = 0 ↔
      ∃ b1 b2, bus 0x300b 1 = some b1 ∧ bus 0x300a 1 = some b2 ∧
        (assembleBE b1 ||| (assembleBE b2 <<< 8)) = 0x9281) ∧
    (ov9281_check_sensor_id bus = 0 ∨ ov9281_check_sensor_id bus = -19) := by
  have e1 : OV9281_REG_CHIP_ID + 1 = 0x300b := by norm_num [OV9281_REG_CHIP_ID]
  unfold ov9281_check_sensor_id
  rw [e1]
  unfold ov9281_read_reg
  cases hb1 : bus 0x300b 1 with
  | none => simp [hb1]
  | some b1 =>
    cases hb2 : bus 0x300a 1 with
    | none => simp [hb1, hb2, OV9281_REG_CHIP_ID]
    | some b2 =>
      by_cases hid : (assembleBE b1 ||| (assembleBE b2 <<< 8)) = 0x9281
      · simp [hb1, hb2, hid, OV9281_REG_CHIP_ID, CHIP_ID]
      · simp [hb1, hb2, hid, OV9281_REG_CHIP_ID, CHIP_ID]

/-- Claim C6: setting the exposure control to an accepted value `E` while
the device is resumed produces exactly one 24-bit register write, to
`0x3500`, of value `E <<< 4`. -/
theorem exposure_write_encoding (bus : WBus) (s : Ov9281) (E : Nat)
    (hres : s.resumed = true)
    (hmin : s.exposure_range.minimum ≤ (E : Int))
    (hmax : (E : Int) ≤ s.exposure_range.maximum) :
    (v4l2_s_ctrl bus s CtrlId.exposure E).2.1
      = [Op.pmGet, Op.i2cWrite OV9281_REG_EXPOSURE 3 (E <<< 4), Op.pmPut] := by
  simp [v4l2_s_ctrl, ov9281_set_ctrl, ov9281_vblank_propagate,
    ov9281_ctrl_writes, wreg, hres]

theorem exposure_write_encoding_witness :
    streamState.resumed = true ∧
    streamState.exposure_range.minimum ≤ ((0x320 : Nat) : Int) ∧
    ((0x320 : Nat) : Int) ≤ streamState.exposure_range.maximum ∧
    (v4l2_s_ctrl allOk streamState CtrlId.exposure 0x320).2.1
      = [Op.pmGet, Op.i2cWrite OV9281_REG_EXPOSURE 3 (0x320 <<< 4), Op.pmPut] := by
  refine ⟨rfl, by decide, by decide, ?_⟩
  exact exposure_write_encoding allOk streamState 0x320 rfl (by decide) (by decide)

/-- Claim C7: setting the analogue-gain control to `G ∈ [0x10, 0xF8]`
while the device is resumed produces two 8-bit writes: `0x3508` receives
`(G >>> 8) &&& 0x07` and `0x3509` receives `G &&& 0xFF`. -/
theorem gain_write_split (bus : WBus) (s : Ov9281) (G : Nat)
    (hres : s.resumed = true) (hlo : 0x10 ≤ G) (hhi : G ≤ 0xF8) :
    (v4l2_s_ctrl bus s CtrlId.anal_gain G).2.1
      = [Op.pmGet, Op.i2cWrite OV9281_REG_GAIN_H 1 ((G >>> 8) &&& 0x07),
         Op.i2cWrite OV9281_REG_GAIN_L 1 (G &&& 0xff), Op.pmPut] := by
  simp [v4l2_s_ctrl, ov9281_set_ctrl, ov9281_vblank_propagate,
    ov9281_ctrl_writes, wreg, hres, OV9281_GAIN_H_SHIFT, OV9281_GAIN_H_MASK,
    OV9281_GAIN_L_MASK]

theorem gain_write_split_witness :
    streamState.resumed = true ∧ (0x10 ≤ 0x20 ∧ 0x20 ≤ 0xF8) ∧
    (v4l2_s_ctrl allOk streamState CtrlId.anal_gain 0x20).2.1
      = [Op.pmGet, Op.i2cWrite OV9281_REG_GAIN_H 1 ((0x20 >>> 8) &&& 0x07),
         Op.i2cWrite OV9281_REG_GAIN_L 1 (0x20 &&& 0xff), Op.pmPut] := by
  refine ⟨rfl, ⟨by decide, by decide⟩, ?_⟩
  exact gain_write_split allOk streamState 0x20 rfl (by decide) (by decide)

/-- Claim C8: setting the test-pattern control while the device is
resumed produces one 8-bit write to `0x5E00`: value `0x00` for index 0
and `(N − 1) ||| 0x80` for `N ∈ {1,2,3,4}`. -/
theorem test_pattern_encoding (bus : WBus) (s : Ov9281) (N : Nat)
    (hres : s.resumed = true) (hN : N ≤ 4) :
    (N = 0 → (v4l2_s_ctrl bus s CtrlId.test_pattern N).2.1
      = [Op.pmGet, Op.i2cWrite OV9281_REG_TEST_PATTERN 1 0x00, Op.pmPut]) ∧
    (1 ≤ N → (v4l2_s_ctrl bus s CtrlId.test_pattern N).2.1
      = [Op.pmGet, Op.i2cWrite OV9281_REG_TEST_PATTERN 1 ((N - 1) ||| 0x80),
         Op.pmPut]) := by
  constructor
  · intro h0
    subst h0
    simp [v4l2_s_ctrl, ov9281_set_ctrl, ov9281_vblank_propagate,
      ov9281_ctrl_writes, ov9281_enable_test_pattern, ov9281_test_pattern_val,
      wreg, hres, OV9281_TEST_PATTERN_DISABLE]
  · intro h1
    have hne : N ≠ 0 := by omega
    simp [v4l2_s_ctrl, ov9281_set_ctrl, ov9281_vblank_propagate,
      ov9281_ctrl_writes, ov9281_enable_test_pattern, ov9281_test_pattern_val,
      wreg, hres, hne, OV9281_TEST_PATTERN_ENABLE]

theorem test_pattern_encoding_witness :
    streamState.resumed = true ∧ (3 : Nat) ≤ 4 ∧
    (v4l2_s_ctrl allOk streamState CtrlId.test_pattern 3).2.1
      = [Op.pmGet, Op.i2cWrite OV9281_REG_TEST_PATTERN 1 ((3 - 1) ||| 0x80),
         Op.pmPut] ∧
    (v4l2_s_ctrl allOk streamState CtrlId.test_pattern 0).2.1
      = [Op.pmGet, Op.i2cWrite OV9281_REG_TEST_PATTERN 1 0x00, Op.pmPut] := by
  refine ⟨rfl, by decide, ?_, ?_⟩
  · exact (test_pattern_encoding allOk streamState 3 rfl (by decide)).2 (by decide)
  · exact (test_pattern_encoding allOk streamState 0 rfl (by decide)).1 rfl

/-- Claim C1: a VBLANK write of `v` always updates the exposure maximum
to `height + v − 4` (whatever the power state); the VTS register write of
`v + height` to `0x380E` happens exactly when the device is resumed; and
after any sequence of VBLANK writes the exposure maximum is
`height + vblank − 4` for the final VBLANK value. -/
theorem vblank_updates_exposure_max (bus : WBus) (s : Ov9281) (v : Nat) :
    ((v4l2_s_ctrl bus s CtrlId.vblank v).1.exposure_range.maximum
        = (s.cur_mode.height : Int) + (v : Int) - 4) ∧
    (s.resumed = true →
      (v4l2_s_ctrl bus s CtrlId.vblank v).2.1
        = [Op.pmGet, Op.i2cWrite OV9281_REG_VTS 2 (v + s.cur_mode.height),
           Op.pmPut]) ∧
    (s.resumed = false →
      ∀ a l w, Op.i2cWrite a l w ∉ (v4l2_s_ctrl bus s CtrlId.vblank v).2.1) ∧
    (∀ vs : List Nat,
      (applyVblanks bus s (vs ++ [v])).exposure_range.maximum
        = (s.cur_mode.height : Int) + (v : Int) - 4) ∧
    ((∀ a l w, bus a l w = true) → ∀ vs : List Nat, vs ≠ [] →
      (applyVblanks bus s vs).exposure_range.maximum
        = ((applyVblanks bus s vs).cur_mode.height : Int)
          + ((applyVblanks bus s vs).vblank_val : Int) - 4) := by
  refine ⟨s_ctrl_vblank_max bus s v, ?_, ?_, ?_, ?_⟩
  · intro hres
    simp [v4l2_s_ctrl, ov9281_set_ctrl, ov9281_vblank_propagate,
      ov9281_ctrl_writes, wreg, hres]
  · intro hres a l w
    rw [s_ctrl_suspended bus s CtrlId.vblank v hres]
    simp
  · intro vs
    rw [applyVblanks_concat]
    rw [s_ctrl_vblank_max bus (applyVblanks bus s vs) v,
      applyVblanks_cur_mode]
  · intro hbus vs hne
    rcases List.eq_nil_or_concat vs with h | ⟨l, w, h⟩
    · exact absurd h hne
    · subst h
      rw [List.concat_eq_append, applyVblanks_concat]
      exact s_ctrl_vblank_invariant_step bus hbus (applyVblanks bus s l) w

theorem vblank_updates_exposure_max_witness :
    ((v4l2_s_ctrl allOk streamState CtrlId.vblank 4096).1.exposure_range.maximum
        = (streamState.cur_mode.height : Int) + ((4096 : Nat) : Int) - 4) ∧
    streamState.resumed = true ∧
    ((v4l2_s_ctrl allOk streamState CtrlId.vblank 4096).2.1
      = [Op.pmGet,
         Op.i2cWrite OV9281_REG_VTS 2 (4096 + streamState.cur_mode.height),
         Op.pmPut]) ∧
    initState.resumed = false ∧
    Op.i2cWrite OV9281_REG_VTS 2 4896
      ∉ (v4l2_s_ctrl allOk initState CtrlId.vblank 4096).2.1 ∧
    ((applyVblanks allOk streamState ([16, 42] ++ [4096])).exposure_range.maximum
        = (streamState.cur_mode.height : Int) + ((4096 : Nat) : Int) - 4) ∧
    ([16, 42] : List Nat) ≠ [] ∧
    ((applyVblanks allOk streamState [16, 42]).exposure_range.maximum
        = ((applyVblanks allOk streamState [16, 42]).cur_mode.height : Int)
          + ((applyVblanks allOk streamState [16, 42]).vblank_val : Int) - 4) := by
  have h := vblank_updates_exposure_max allOk streamState 4096
  have h2 := vblank_updates_exposure_max allOk initState 4096
  exact ⟨h.1, rfl, h.2.1 rfl, rfl, h2.2.2.1 rfl OV9281_REG_VTS 2 4896,
    h.2.2.2.1 [16, 42], by decide,
    h.2.2.2.2 (fun a l w => rfl) [16, 42] (by decide)⟩

/-- Claim C2: `s_stream(1)` from the non-streaming state performs, in
order, the runtime-PM get, the mode's full register sequence, the control
replay and the 8-bit write of `0x01` to `0x0100`, and sets the streaming
flag on success; a failed PM get or a failed start releases the PM
reference, returns the error and leaves the streaming flag false. -/
theorem s_stream_on_protocol (bus : WBus) (pm : Int) (s : Ov9281)
    (hstr : s.streaming = false) :
    (pm < 0 →
      ov9281_s_stream bus pm s true = (s, [Op.pmGetSync, Op.pmPutNoidle], pm)) ∧
    (0 ≤ pm → (∀ a l v, bus a l v = true) →
      ov9281_s_stream bus pm s true =
        ({ setupState s with resumed := true, streaming := true },
         Op.pmGetSync :: (ov9281_array_trace s.cur_mode.reg_list
           ++ ov9281_setup_trace s
           ++ [Op.i2cWrite OV9281_REG_CTRL_MODE 1 OV9281_MODE_STREAMING]), 0)) ∧
    (0 ≤ pm → (__ov9281_start_stream bus { s with resumed := true }).2.2 ≠ 0 →
      ov9281_s_stream bus pm s true =
        ((__ov9281_start_stream bus { s with resumed := true }).1,
         Op.pmGetSync
           :: (__ov9281_start_stream bus { s with resumed := true }).2.1
           ++ [Op.pmPut],
         (__ov9281_start_stream bus { s with resumed := true }).2.2) ∧
      (ov9281_s_stream bus pm s true).1.streaming = false) := by
  refine ⟨?_, ?_, ?_⟩
  · intro hpm
    simp [ov9281_s_stream, hstr, hpm]
  · intro hpm hbus
    exact s_stream_on_ok bus pm s hstr hpm hbus
  · intro hpm hfail
    have hpm2 : ¬ pm < 0 := not_lt.mpr hpm
    have hp := start_stream_preserves_streaming bus { s with resumed := true }
    simp only [hstr] at hfail hp
    constructor
    · simp [ov9281_s_stream, hstr, hpm2, hfail]
    · simp [ov9281_s_stream, hstr, hpm2, hfail, hp]

theorem s_stream_on_protocol_witness :
    initState.streaming = false ∧
    ((-1 : Int) < 0) ∧
    ov9281_s_stream allOk (-1) initState true
      = (initState, [Op.pmGetSync, Op.pmPutNoidle], -1) ∧
    ((0 : Int) ≤ 0) ∧
    (ov9281_s_stream allOk 0 initState true =
      ({ setupState initState with resumed := true, streaming := true },
       Op.pmGetSync :: (ov9281_array_trace initState.cur_mode.reg_list
         ++ ov9281_setup_trace initState
         ++ [Op.i2cWrite OV9281_REG_CTRL_MODE 1 OV9281_MODE_STREAMING]), 0)) ∧
    ((__ov9281_start_stream allFail { initState with resumed := true }).2.2 ≠ 0) ∧
    (ov9281_s_stream allFail 0 initState true =
      ((__ov9281_start_stream allFail { initState with resumed := true }).1,
       Op.pmGetSync
         :: (__ov9281_start_stream allFail { initState with resumed := true }).2.1
         ++ [Op.pmPut],
       (__ov9281_start_stream allFail { initState with resumed := true }).2.2)) ∧
    (ov9281_s_stream allFail 0 initState true).1.streaming = false := by
  have h1 := s_stream_on_protocol allOk (-1) initState rfl
  have h2 := s_stream_on_protocol allOk 0 initState rfl
  have h3 := s_stream_on_protocol allFail 0 initState rfl
  have hfail : (__ov9281_start_stream allFail
      { initState with resumed := true }).2.2 ≠ 0 := by decide
  exact ⟨rfl, by decide, h1.1 (by decide), by decide,
    h2.2.1 (by decide) (fun a l v => rfl), hfail,
    (h3.2.2 (by decide) hfail).1, (h3.2.2 (by decide) hfail).2⟩

/-- Claim C3: a register-producing control set while the device is
suspended issues no I2C write, stores the logical value, returns success,
and the stored value is written to the sensor during the control replay
of the next `s_stream(1)`. -/
theorem suspended_ctrl_write_absorbed (bus bus2 : WBus) (pm : Int)
    (s : Ov9281) (id : CtrlId) (v : Nat)
    (hsusp : s.resumed = false) (hstr : s.streaming = false)
    (hbus2 : ∀ a l w, bus2 a l w = true) (hpm : 0 ≤ pm) :
    (∀ a l w, Op.i2cWrite a l w ∉ (v4l2_s_ctrl bus s id v).2.1) ∧
    (v4l2_s_ctrl bus s id v).2.2 = 0 ∧
    ctrlVal (v4l2_s_ctrl bus s id v).1 id = v ∧
    (∀ op ∈ ctrlRegOps s.cur_mode.height id v,
      op ∈ (ov9281_s_stream bus2 pm (v4l2_s_ctrl bus s id v).1 true).2.1) := by
  rw [s_ctrl_suspended bus s id v hsusp]
  have hstr1 : (ctrlStore (ov9281_vblank_propagate s id v) id v).streaming
      = false := by
    cases id <;> simp [ctrlStore, ov9281_vblank_propagate, hstr]
  refine ⟨by simp, rfl, ?_, ?_⟩
  · cases id <;> simp [ctrlVal, ctrlStore, ov9281_vblank_propagate]
  · intro op hop
    rw [s_stream_on_ok bus2 pm _ hstr1 hpm hbus2]
    cases id <;>
      simp only [ctrlRegOps, List.mem_singleton, List.mem_cons,
        List.mem_append, ov9281_setup_trace, ctrlStore,
        ov9281_vblank_propagate] at hop ⊢ <;>
      rcases hop with h | h <;>
      simp_all

theorem suspended_ctrl_write_absorbed_witness :
    initState.resumed = false ∧ initState.streaming = false ∧
    Op.i2cWrite OV9281_REG_EXPOSURE 3 (0x100 <<< 4)
      ∉ (v4l2_s_ctrl allOk initState CtrlId.exposure 0x100).2.1 ∧
    (v4l2_s_ctrl allOk initState CtrlId.exposure 0x100).2.2 = 0 ∧
    ctrlVal (v4l2_s_ctrl allOk initState CtrlId.exposure 0x100).1
      CtrlId.exposure = 0x100 ∧
    Op.i2cWrite OV9281_REG_EXPOSURE 3 (0x100 <<< 4)
      ∈ (ov9281_s_stream allOk 0
          (v4l2_s_ctrl allOk initState CtrlId.exposure 0x100).1 true).2.1 := by
  have h := suspended_ctrl_write_absorbed allOk allOk 0 initState
    CtrlId.exposure 0x100 rfl rfl (fun a l w => rfl) (by decide)
  exact ⟨rfl, rfl, h.1 OV9281_REG_EXPOSURE 3 (0x100 <<< 4), h.2.1, h.2.2.1,
    h.2.2.2 _ (by simp [ctrlRegOps])⟩

theorem pmGetSync_not_in_array_trace (regs : List (Nat × Nat)) :
    Op.pmGetSync ∉ ov9281_array_trace regs := by
  intro hmem
  obtain ⟨a, v, he⟩ := array_trace_only_writes regs _ hmem
  cases he

theorem pmGetSync_not_in_setup_trace (s : Ov9281) :
    Op.pmGetSync ∉ ov9281_setup_trace s := by
  simp [ov9281_setup_trace]

/-- Claim C9: `s_power` and `s_stream` are idempotent — a call whose
on-value equals the current flag performs no runtime-PM call and no I2C
write and returns success — so a repeated `s_power(1)` or `s_stream(1)`
causes exactly one underlying PM transition. -/
theorem power_stream_idempotent (bus : WBus) (pm pm2 : Int) (s : Ov9281) :
    (∀ b : Bool, s.power_on = b → ov9281_s_power pm s b = (s, [], 0)) ∧
    (∀ b : Bool, s.streaming = b → ov9281_s_stream bus pm s b = (s, [], 0)) ∧
    (s.power_on = false → 0 ≤ pm →
      ov9281_s_power pm2 (ov9281_s_power pm s true).1 true
        = ((ov9281_s_power pm s true).1, [], 0) ∧
      (ov9281_s_power pm s true).2.1.count Op.pmGetSync = 1) ∧
    (s.streaming = false → 0 ≤ pm → (∀ a l w, bus a l w = true) →
      ov9281_s_stream bus pm2 (ov9281_s_stream bus pm s true).1 true
        = ((ov9281_s_stream bus pm s true).1, [], 0) ∧
      (ov9281_s_stream bus pm s true).2.1.count Op.pmGetSync = 1) := by
  refine ⟨?_, ?_, ?_, ?_⟩
  · intro b hb
    simp [ov9281_s_power, hb]
  · intro b hb
    simp [ov9281_s_stream, hb]
  · intro hpow hpm
    have hpm2 : ¬ pm < 0 := not_lt.mpr hpm
    have h1 : ov9281_s_power pm s true
        = ({ s with power_on := true, resumed := true }, [Op.pmGetSync], 0) := by
      simp [ov9281_s_power, hpow, hpm2]
    rw [h1]
    constructor
    · simp [ov9281_s_power]
    · simp
  · intro hstr hpm hbus
    rw [s_stream_on_ok bus pm s hstr hpm hbus]
    constructor
    · simp [ov9281_s_stream]
    · simp [List.count_cons, List.count_append,
        List.count_eq_zero.mpr (pmGetSync_not_in_array_trace s.cur_mode.reg_list),
        List.count_eq_zero.mpr (pmGetSync_not_in_setup_trace s)]

theorem power_stream_idempotent_witness :
    initState.power_on = false ∧ initState.streaming = false ∧
    ov9281_s_power 0 initState false = (initState, [], 0) ∧
    ov9281_s_stream allOk 0 initState false = (initState, [], 0) ∧
    (ov9281_s_power 0 (ov9281_s_power 0 initState true).1 true
      = ((ov9281_s_power 0 initState true).1, [], 0) ∧
     (ov9281_s_power 0 initState true).2.1.count Op.pmGetSync = 1) ∧
    (ov9281_s_stream allOk 0 (ov9281_s_stream allOk 0 initState true).1 true
      = ((ov9281_s_stream allOk 0 initState true).1, [], 0) ∧
     (ov9281_s_stream allOk 0 initState true).2.1.count Op.pmGetSync = 1) := by
  have h := power_stream_idempotent allOk 0 0 initState
  exact ⟨rfl, rfl, h.1 false rfl, h.2.1 false rfl,
    h.2.2.1 rfl (by decide), h.2.2.2 rfl (by decide) (fun a l w => rfl)⟩
